import Mathlib

/-!
Verification of the Metron batch invoice pipeline against its specification.

Shallow embedding of:
* `src/Backend/app/services/batch_processor_service.ts` — `BatchProcessorService`
  (`processJob`, `processInvoice`, `findPdfFile`, the per-item loop, the output
  packaging call and the cleanup calls);
* `src/Backend/app/models/batch_job.ts` — the `BatchJob` record and its
  transition methods (`createJob`, `startProcessing`, `updateProgress`,
  `markCompleted`, `markFailed`, `cancel`);
* the `User.chargeForInvoices` settlement method (source mirrored in
  `src/Backend/database/migrations/6_create_batch_jobs_table.ts`, lines 234-263);
* the cancel endpoint of `src/Backend/app/controllers/batch_invoices_controller.ts`.

Modelling conventions:
* Effectful collaborators that are external to the pipeline (zip extraction,
  CSV parsing, the XML generator + PDF embedder pair, archive packaging, the
  user row lookup, the usage log insert) are oracles carried in an `Env`
  record; each is an `Except String` value / function, `Except.error` meaning
  the corresponding `await` throws.  The decision structure around them
  (`try`/`catch` shape, order of steps, all `if` tests, all persisted writes)
  is translated from the source literally.
* A JS `number` used as a count is a `Nat`.  `Math.round((p / t) * 100)` for
  nonnegative integers `p`, `t` with `t > 0` equals `⌊(200 p + t) / (2 t)⌋`,
  which is `jsRound100` below (exact rational rounding; the source computes in
  binary floating point, whose value coincides on all quantities appearing in
  this development).  The source never evaluates the expression with `t = 0`
  (the per-item loop, the only caller, is empty then).
* Timestamps are `Nat` milliseconds; `DateTime.now().plus(hours 24)` is
  `now + dayMs`.
* The filesystem is a list of paths (`List String` of components).  `rm`
  with `recursive: true` removes every path below a directory; plain `rm`
  removes one path.  Uploaded files are created by the submit endpoint under
  `tmp/batches/<submission uuid>/`, while the working directory is
  `tmp/batches/<job.publicId>/`, two independently generated UUIDs.
* `findPdfFile` searches the extracted input tree; the claims under study only
  depend on whether an entry with the record's filename exists, so the
  extracted archive is modelled as a flat list of named entries with their
  first five bytes (the subdirectory walk and base-name fallback of the
  source add further ways to find a file, none of which the claims exercise).
-/

namespace Metron

/-- Status enum of `batch_job.ts`. -/
inductive BatchJobStatus where
  | pending
  | processing
  | completed
  | failed
  | cancelled
deriving DecidableEq

/-- One entry of the per-item error list: `{ filename, error }`. -/
structure ItemError where
  filename : String
  error : String
deriving DecidableEq

/-- A filesystem path, as a list of components. -/
abbrev Path := List String

/-- The persisted `BatchJob` row (the columns the pipeline reads or writes). -/
structure Job where
  publicId : String
  status : BatchJobStatus
  totalInvoices : Nat
  processedInvoices : Nat
  failedInvoices : Nat
  progress : Nat
  totalCostCents : Nat
  inputZipPath : Option Path
  metadataCsvPath : Option Path
  outputZipPath : Option Path
  outputSizeBytes : Option Nat
  downloadExpiresAt : Option Nat
  errorMessage : Option String
  errorsDetail : Option (List ItemError)
  startedAt : Option Nat
  completedAt : Option Nat
deriving DecidableEq

/-- Twenty-four hours in milliseconds (`24 * 60 * 60 * 1000`). -/
def dayMs : Nat := 24 * 60 * 60 * 1000

/-- Model of `Math.round((p / t) * 100)` on nonnegative integers with `t > 0`:
`⌊p / t * 100 + 1/2⌋ = ⌊(200 p + t) / (2 t)⌋`. -/
def jsRound100 (p t : Nat) : Nat := (200 * p + t) / (2 * t)

/-- Model of `BatchJob.createJob` (the row it inserts). -/
def createJob (pid : String) (totalInvoices : Nat) (zipP csvP : Path) : Job :=
  { publicId := pid
    status := .pending
    totalInvoices := totalInvoices
    processedInvoices := 0
    failedInvoices := 0
    progress := 0
    totalCostCents := totalInvoices * 10
    inputZipPath := some zipP
    metadataCsvPath := some csvP
    outputZipPath := none
    outputSizeBytes := none
    downloadExpiresAt := none
    errorMessage := none
    errorsDetail := none
    startedAt := none
    completedAt := none }

/-- Model of `BatchJob.startProcessing`. -/
def startProcessing (now : Nat) (j : Job) : Job :=
  { j with status := .processing, startedAt := some now }

/-- Model of `BatchJob.updateProgress`. -/
def updateProgress (processed failed : Nat) (j : Job) : Job :=
  { j with processedInvoices := processed
           failedInvoices := failed
           progress := jsRound100 processed j.totalInvoices }

/-- Model of `BatchJob.markCompleted`. -/
def markCompleted (now : Nat) (outputZipPath : Path) (outputSizeBytes : Nat)
    (j : Job) : Job :=
  { j with status := .completed
           outputZipPath := some outputZipPath
           outputSizeBytes := some outputSizeBytes
           progress := 100
           completedAt := some now
           downloadExpiresAt := some (now + dayMs) }

/-- Model of `BatchJob.markFailed` (`errorsDetail || null`: an omitted detail list
nulls the column). -/
def markFailed (errorMessage : String) (errorsDetail : Option (List ItemError))
    (now : Nat) (j : Job) : Job :=
  { j with status := .failed
           errorMessage := some errorMessage
           errorsDetail := errorsDetail
           completedAt := some now }

/-- Model of `BatchJob.cancel`. -/
def cancel (now : Nat) (j : Job) : Job :=
  { j with status := .cancelled, completedAt := some now }

/-- The cancel endpoint of `batch_invoices_controller.ts` (`DELETE
/api/invoices/batch/:jobId`), after the job has been found: terminal
statuses are rejected with `CANNOT_CANCEL`, otherwise `job.cancel()` runs. -/
def cancelRequest (now : Nat) (j : Job) : Except String Job :=
  if j.status = .completed ∨ j.status = .failed ∨ j.status = .cancelled then
    Except.error "Ce batch ne peut plus être annulé"
  else
    Except.ok (cancel now j)

/-- The `User` row fields read by settlement.  `planIsFree` is
`plan === "free"`; `hasActiveSub` is the value of `hasActiveSubscription()`
(a pure predicate of the plan and the subscription end date, abstracted to
its boolean outcome). -/
structure User where
  planIsFree : Bool
  hasActiveSub : Bool
  creditBalance : Nat
  invoicesUsedThisMonth : Nat
deriving DecidableEq

/-- Model of `User.chargeForInvoices(count)`: free plan or active subscription only
bumps the monthly usage counter; otherwise `count * 10` centimes are deducted
from the credit balance, throwing when the balance is insufficient (the
surrounding transaction then leaves the row unchanged). -/
def chargeForInvoices (count : Nat) (u : User) : Except String User :=
  if u.planIsFree || u.hasActiveSub then
    Except.ok { u with invoicesUsedThisMonth := u.invoicesUsedThisMonth + count }
  else if u.creditBalance < count * 10 then
    Except.error "Crédit insuffisant"
  else
    Except.ok { u with creditBalance := u.creditBalance - count * 10
                       invoicesUsedThisMonth := u.invoicesUsedThisMonth + count }

/-- Step 6 of `processJob`: `User.find(job.userId)` followed by
`chargeForInvoices` when a row is found. -/
def chargeStep (userLookup : Option User) (count : Nat) :
    Except String (Option User) :=
  match userLookup with
  | none => Except.ok none
  | some u =>
    match chargeForInvoices count u with
    | Except.ok v => Except.ok (some v)
    | Except.error msg => Except.error msg

/-- One row of the parsed manifest (`BatchInvoiceMetadata`), after the
column-alias resolution of `parseCsv`.  Only `filename` and `invoiceNumber`
are read by the pipeline logic under verification; the remaining fields are
carried for fidelity and default to the empty string in concrete scenarios. -/
structure BatchInvoiceMetadata where
  filename : String
  invoiceNumber : String
  invoiceDate : String := ""
  sellerName : String := ""
  sellerSiret : String := ""
  sellerCountryCode : String := "FR"
  buyerName : String := ""
  buyerCountryCode : String := "FR"
  currencyCode : String := "EUR"
  totalHT : String := ""
  totalTVA : String := ""
  totalTTC : String := ""
deriving DecidableEq

/-- One entry of the extracted input archive: its name and its first five
bytes decoded as ASCII. -/
structure PdfFile where
  name : String
  magic : String
deriving DecidableEq

/-- Model of `findPdfFile`: locate the entry named by the manifest row, `none` when
the archive holds no such entry. -/
def findPdf (archive : List PdfFile) (filename : String) : Option PdfFile :=
  archive.find? (fun f => f.name == filename)

/-- Model of `processInvoice`: locate the paired PDF, check the `%PDF-` magic bytes,
run the XML generation + embedding (the `compose` oracle), and on success
return the output filename `facturx-<invoiceNumber>.pdf` written to
`output/`.  Every failure is an `Except.error` carrying the thrown message. -/
def processInvoice (archive : List PdfFile)
    (compose : BatchInvoiceMetadata → Except String Unit)
    (m : BatchInvoiceMetadata) : Except String String :=
  match findPdf archive m.filename with
  | none => Except.error ("Fichier PDF non trouvé: " ++ m.filename)
  | some f =>
    if f.magic ≠ "%PDF-" then
      Except.error ("Le fichier n\u0027est pas un PDF valide: " ++ m.filename)
    else
      match compose m with
      | Except.error e => Except.error e
      | Except.ok _ => Except.ok ("facturx-" ++ m.invoiceNumber ++ ".pdf")

/-- The per-item outcome recorded in the error list: `none` when the item
composes, `some {filename, message}` when it fails. -/
def itemErrOf (archive : List PdfFile)
    (compose : BatchInvoiceMetadata → Except String Unit)
    (m : BatchInvoiceMetadata) : Option ItemError :=
  match processInvoice archive compose m with
  | Except.ok _ => none
  | Except.error e => some ⟨m.filename, e⟩

/-- The error list the loop accumulates over a manifest. -/
def errorsOf (archive : List PdfFile)
    (compose : BatchInvoiceMetadata → Except String Unit)
    (ms : List BatchInvoiceMetadata) : List ItemError :=
  ms.filterMap (itemErrOf archive compose)

/-- The number of successfully composed items of a manifest. -/
def okCount (archive : List PdfFile)
    (compose : BatchInvoiceMetadata → Except String Unit)
    (ms : List BatchInvoiceMetadata) : Nat :=
  (ms.filter (fun m => (itemErrOf archive compose m).isNone)).length

/-- The filesystem: the set of existing files. -/
abbrev FS := List Path

/-- Whether `d` is an ancestor (or equal) directory of `p`. -/
def leadsTo : Path → Path → Bool
  | [], _ => true
  | _ :: _, [] => false
  | a :: as, b :: bs => a == b && leadsTo as bs

/-- Model of `rm(dir, recursive: true, force: true)`. -/
def rmRec (d : Path) (fs : FS) : FS := fs.filter (fun p => !(leadsTo d p))

/-- Model of `rm(file, force: true)`. -/
def rmFile (f : Path) (fs : FS) : FS := fs.filter (fun p => !(p == f))

/-- Model of `if (path) await rm(path, force: true)`: conditional single-file removal. -/
def rmFileOpt (o : Option Path) (fs : FS) : FS :=
  match o with
  | some p => rmFile p fs
  | none => fs

/-- Model of `app.tmpPath("batches")`. -/
def batchesRoot : Path := ["tmp", "batches"]

/-- The uploaded archive written by the submit endpoint under its own
submission UUID. -/
def uploadZipPathOf (uid : String) : Path := batchesRoot ++ [uid, "invoices.zip"]

/-- The uploaded manifest written by the submit endpoint. -/
def uploadCsvPathOf (uid : String) : Path := batchesRoot ++ [uid, "metadata.csv"]

/-- Model of `jobDir = join(tempDir, job.publicId)`. -/
def jobDirOf (pid : String) : Path := batchesRoot ++ [pid]

/-- Model of `inputDir = join(jobDir, "input")`. -/
def inputDirOf (pid : String) : Path := jobDirOf pid ++ ["input"]

/-- Model of `outputDir = join(jobDir, "output")`. -/
def outputDirOf (pid : String) : Path := jobDirOf pid ++ ["output"]

/-- Model of `outputZipPath = join(jobDir, "facturx-" + job.publicId + ".zip")`. -/
def outputZipOf (pid : String) : Path :=
  jobDirOf pid ++ ["facturx-" ++ pid ++ ".zip"]

/-- The size-ceiling message thrown at 10,000+ manifest rows. -/
def ceilingMsg (n : Nat) : String :=
  "Le batch contient " ++ toString n ++ " factures. Maximum autorisé: 10000"

/-- Oracles for the effectful collaborators of one `processJob` run. -/
structure Env where
  now : Nat
  uploadDirId : String
  extractResult : Except String Unit
  archive : List PdfFile
  parseResult : Except String (List BatchInvoiceMetadata)
  compose : BatchInvoiceMetadata → Except String Unit
  packResult : Except String Nat
  userLookup : Option User
  logResult : Except String Unit

/-- Mutable state of the per-item loop of `processJob` (step 3): the local
`processed` counter, the local `errors` array, the job row, the list of
persisted job snapshots so far, the filesystem. -/
structure LoopState where
  processed : Nat
  errors : List ItemError
  job : Job
  snaps : List Job
  fs : FS

/-- Tail of each loop iteration: persist progress whenever
`processed % 10 == 0 || errors.length % 10 == 0`. -/
def loopCheckpoint (s1 : LoopState) : LoopState :=
  if s1.processed % 10 = 0 ∨ s1.errors.length % 10 = 0 then
    let j := updateProgress s1.processed s1.errors.length s1.job
    { s1 with job := j, snaps := s1.snaps ++ [j] }
  else
    s1

/-- One iteration of the per-item loop: try `processInvoice`; on success
increment `processed` and write the output file, on failure push
`{filename, message}`; then run the periodic progress checkpoint. -/
def loopStep (archive : List PdfFile)
    (compose : BatchInvoiceMetadata → Except String Unit)
    (outDir : Path) (s : LoopState) (m : BatchInvoiceMetadata) : LoopState :=
  loopCheckpoint
    (match processInvoice archive compose m with
    | Except.ok outName =>
      { s with processed := s.processed + 1, fs := s.fs ++ [outDir ++ [outName]] }
    | Except.error e =>
      { s with errors := s.errors ++ [⟨m.filename, e⟩] })

/-- The job row, persisted snapshots and filesystem at the moment an
exception unwinds to the top-level handler. -/
structure MidState where
  job : Job
  snaps : List Job
  fs : FS

/-- The transient `BatchProcessingResult` returned by `processJob`. -/
structure BatchProcessingResult where
  success : Bool
  totalProcessed : Nat
  totalFailed : Nat
  outputZipPath : Option Path
  outputSizeBytes : Option Nat
  errors : List ItemError
deriving DecidableEq

/-- Everything observable about one `processJob` run: the returned result,
the final job row, every persisted job snapshot in order, the final
filesystem, and the final user row (`none` when the lookup found none). -/
structure RunOut where
  result : BatchProcessingResult
  job : Job
  snaps : List Job
  fs : FS
  user : Option User

/-- The count correction after manifest parsing (`processJob` lines 96-100):
when the parsed count differs from the submission-time estimate, both
`totalInvoices` and `totalCostCents` are rewritten. -/
def correctTotals (metaLen : Nat) (j : Job) : Job :=
  if metaLen ≠ j.totalInvoices then
    { j with totalInvoices := metaLen, totalCostCents := metaLen * 10 }
  else
    j

/-- Steps 4-11 of `processJob` (from `createOutputZip` on), as a function of
the loop state reached after the per-item phase.  `metaLen` is
`metadata.length`. -/
def afterLoop (e : Env) (pid : String) (metaLen : Nat) (st : LoopState) :
    Except (String × MidState) RunOut :=
  match e.packResult with
  | Except.error msg => Except.error (msg, ⟨st.job, st.snaps, st.fs⟩)
  | Except.ok size =>
    let zip := outputZipOf pid
    let fs2 := st.fs ++ [zip]
    let jFail := markFailed "Toutes les factures ont échoué" (some st.errors)
      e.now st.job
    let jComp := markCompleted e.now zip size st.job
    let jCompE := { jComp with errorsDetail := some st.errors }
    let j3 := if st.errors.length = metaLen then jFail
      else if 0 < st.errors.length then jCompE else jComp
    let snaps3 := st.snaps ++ (if st.errors.length = metaLen then [jFail]
      else if 0 < st.errors.length then [jComp, jCompE] else [jComp])
    match chargeStep e.userLookup st.processed with
    | Except.error msg => Except.error (msg, ⟨j3, snaps3, fs2⟩)
    | Except.ok u2 =>
      match e.logResult with
      | Except.error msg => Except.error (msg, ⟨j3, snaps3, fs2⟩)
      | Except.ok _ =>
        let fsA := rmRec (inputDirOf pid) fs2
        let fsB :=
          match j3.inputZipPath with
          | some p => rmFile p fsA
          | none => fsA
        let fsC :=
          match j3.metadataCsvPath with
          | some p => rmFile p fsB
          | none => fsB
        Except.ok
          { result :=
              { success := decide (st.errors.length < metaLen)
                totalProcessed := st.processed
                totalFailed := st.errors.length
                outputZipPath := some zip
                outputSizeBytes := some size
                errors := st.errors }
            job := j3
            snaps := snaps3
            fs := fsC
            user := u2 }

/-- The `try` block of `processJob` (steps 1-11), an `Except.error` carrying
the thrown message and the state at the throw site.  Follows
`batch_processor_service.ts` lines 76-168 statement by statement. -/
def processJobBody (e : Env) (j0 : Job) : Except (String × MidState) RunOut :=
  let j1 := startProcessing e.now j0
  let fs0 : FS := [uploadZipPathOf e.uploadDirId, uploadCsvPathOf e.uploadDirId]
  let snaps1 := [j1]
  match e.extractResult with
  | Except.error msg => Except.error (msg, ⟨j1, snaps1, fs0⟩)
  | Except.ok _ =>
    let fs1 := fs0 ++ e.archive.map (fun f => inputDirOf j0.publicId ++ [f.name])
    match e.parseResult with
    | Except.error msg => Except.error (msg, ⟨j1, snaps1, fs1⟩)
    | Except.ok metadata =>
      if 10000 < metadata.length then
        Except.error (ceilingMsg metadata.length, ⟨j1, snaps1, fs1⟩)
      else
        let j2 := correctTotals metadata.length j1
        let snaps2 :=
          if metadata.length ≠ j1.totalInvoices then snaps1 ++ [j2] else snaps1
        afterLoop e j0.publicId metadata.length
          (metadata.foldl
            (loopStep e.archive e.compose (outputDirOf j0.publicId))
            ⟨0, [], j2, snaps2, fs1⟩)

/-- Model of `processJob`: the body plus its single `catch` handler, which marks the
job failed with the thrown message, purges the whole working directory, and
returns the unsuccessful result with the `*` error entry and
`totalFailed = job.totalInvoices`. -/
def processJob (e : Env) (j0 : Job) : RunOut :=
  match processJobBody e j0 with
  | Except.ok out => out
  | Except.error (msg, mid) =>
    let jF := markFailed msg none e.now mid.job
    { result :=
        { success := false
          totalProcessed := 0
          totalFailed := mid.job.totalInvoices
          outputZipPath := none
          outputSizeBytes := none
          errors := [⟨"*", msg⟩] }
      job := jF
      snaps := mid.snaps ++ [jF]
      fs := rmRec (jobDirOf j0.publicId) mid.fs
      user := e.userLookup }

/-! ### The persisted-snapshot invariant (claim C7) -/

/-- The progress-state invariant of one persisted `BatchJob` snapshot:
`processedCount + failedCount ≤ totalItems`; a snapshot persisted while
`processing` carries `progress = round(processed / total * 100)`; a snapshot
persisted as `completed` carries `progress = 100`. -/
def SnapOkP (j : Job) : Prop :=
  j.processedInvoices + j.failedInvoices ≤ j.totalInvoices
  ∧ (j.status = BatchJobStatus.processing →
      j.progress = jsRound100 j.processedInvoices j.totalInvoices)
  ∧ (j.status = BatchJobStatus.completed → j.progress = 100)

/-- Boolean form of `SnapOkP`, for binder-free concrete checks. -/
def snapOk (j : Job) : Bool :=
  decide (j.processedInvoices + j.failedInvoices ≤ j.totalInvoices)
  && (!(j.status = BatchJobStatus.processing : Bool)
      || (j.progress == jsRound100 j.processedInvoices j.totalInvoices))
  && (!(j.status = BatchJobStatus.completed : Bool) || (j.progress == 100))

/-! ### Concrete scenarios -/

/-- Manifest rows of the mixed-failure scenario (spec scenario 2): two
rows whose PDFs are in the archive and a third whose PDF is missing. -/
def mf1 : BatchInvoiceMetadata := { filename := "f1.pdf", invoiceNumber := "INV1" }

/-- Second row of the mixed-failure scenario. -/
def mf2 : BatchInvoiceMetadata := { filename := "f2.pdf", invoiceNumber := "INV2" }

/-- Third row of the mixed-failure scenario; no archive entry is named
`f3.pdf`. -/
def mf3 : BatchInvoiceMetadata := { filename := "f3.pdf", invoiceNumber := "INV3" }

/-- Mixed-failure scenario: archive with 2 valid PDFs, manifest with those
2 plus a third filename not present; every other collaborator succeeds; no
user row (billing is a no-op). -/
def envMixed : Env :=
  { now := 1000
    uploadDirId := "u"
    extractResult := Except.ok ()
    archive := [⟨"f1.pdf", "%PDF-"⟩, ⟨"f2.pdf", "%PDF-"⟩]
    parseResult := Except.ok [mf1, mf2, mf3]
    compose := fun _ => Except.ok ()
    packResult := Except.ok 4242
    userLookup := none
    logResult := Except.ok () }

/-- The job row of the mixed-failure scenario (estimate already 3). -/
def jobMixed : Job := createJob "p" 3 (uploadZipPathOf "u") (uploadCsvPathOf "u")

/-- A pay-as-you-go user (no free plan, no active subscription) with 50
centimes of credit and 7 invoices used this month. -/
def uCredit : User := ⟨false, false, 50, 7⟩

/-- The mixed-failure scenario run for the owner `uCredit`. -/
def envCredit : Env := { envMixed with userLookup := some uCredit }

/-- Insufficient-credit scenario: one item that composes successfully, owned
by a pay-as-you-go user holding only 5 centimes, so settlement of the 10
centime charge throws after the job was already marked completed. -/
def envPoor : Env :=
  { now := 0
    uploadDirId := "u"
    extractResult := Except.ok ()
    archive := [⟨"a.pdf", "%PDF-"⟩]
    parseResult := Except.ok [{ filename := "a.pdf", invoiceNumber := "A1" }]
    compose := fun _ => Except.ok ()
    packResult := Except.ok 100
    userLookup := some ⟨false, false, 5, 0⟩
    logResult := Except.ok () }

/-- The job row of the insufficient-credit scenario. -/
def jobPoor : Job := createJob "q" 1 (uploadZipPathOf "u") (uploadCsvPathOf "u")

/-- Fatal-extraction scenario: the input archive is corrupt and
`extractZip` throws `boom` before anything else happens. -/
def envExtractFail : Env :=
  { now := 0
    uploadDirId := "u"
    extractResult := Except.error "boom"
    archive := []
    parseResult := Except.ok []
    compose := fun _ => Except.ok ()
    packResult := Except.ok 0
    userLookup := none
    logResult := Except.ok () }

/-- The job row of the fatal-extraction scenario (estimated 7 items). -/
def jobX : Job := createJob "p" 7 (uploadZipPathOf "u") (uploadCsvPathOf "u")

/-- Packaging-failure scenario: both items compose successfully, then
`createOutputZip` throws. -/
def envPackFail : Env :=
  { now := 0
    uploadDirId := "u"
    extractResult := Except.ok ()
    archive := [⟨"f1.pdf", "%PDF-"⟩, ⟨"f2.pdf", "%PDF-"⟩]
    parseResult := Except.ok [mf1, mf2]
    compose := fun _ => Except.ok ()
    packResult := Except.error "Zip stream error"
    userLookup := none
    logResult := Except.ok () }

/-- The job row of the packaging-failure scenario. -/
def jobPack : Job := createJob "p" 2 (uploadZipPathOf "u") (uploadCsvPathOf "u")

/-- A manifest row reused 10,001 times for the size-ceiling scenario. -/
def mBig : BatchInvoiceMetadata := { filename := "x.pdf", invoiceNumber := "X" }

/-- Size-ceiling scenario: the parsed manifest holds 10,001 rows. -/
def envBig : Env :=
  { now := 0
    uploadDirId := "u"
    extractResult := Except.ok ()
    archive := []
    parseResult := Except.ok (List.replicate 10001 mBig)
    compose := fun _ => Except.ok ()
    packResult := Except.ok 0
    userLookup := none
    logResult := Except.ok () }

/-- The job row of the size-ceiling scenario. -/
def jobBig : Job := createJob "p" 200 (uploadZipPathOf "u") (uploadCsvPathOf "u")

/-- A terminal (completed) job row, for exercising the cancel endpoint. -/
def jobDone : Job := markCompleted 5 (outputZipOf "z") 10 (createJob "z" 1 [] [])

/-! ### Basic lemmas about the per-item loop -/

lemma jsRound100_zero (t : Nat) : jsRound100 0 t = 0 := by
  unfold jsRound100
  cases t with
  | zero => rfl
  | succ n => exact Nat.div_eq_of_lt (by omega)

lemma cp_processed (s1 : LoopState) : (loopCheckpoint s1).processed = s1.processed := by
  unfold loopCheckpoint; split <;> rfl

lemma cp_errors (s1 : LoopState) : (loopCheckpoint s1).errors = s1.errors := by
  unfold loopCheckpoint; split <;> rfl

lemma cp_fs (s1 : LoopState) : (loopCheckpoint s1).fs = s1.fs := by
  unfold loopCheckpoint; split <;> rfl

lemma cp_total (s1 : LoopState) :
    (loopCheckpoint s1).job.totalInvoices = s1.job.totalInvoices := by
  unfold loopCheckpoint; split <;> rfl

lemma cp_status (s1 : LoopState) :
    (loopCheckpoint s1).job.status = s1.job.status := by
  unfold loopCheckpoint; split <;> rfl

lemma cp_publicId (s1 : LoopState) :
    (loopCheckpoint s1).job.publicId = s1.job.publicId := by
  unfold loopCheckpoint; split <;> rfl

lemma cp_inputZip (s1 : LoopState) :
    (loopCheckpoint s1).job.inputZipPath = s1.job.inputZipPath := by
  unfold loopCheckpoint; split <;> rfl

lemma cp_csv (s1 : LoopState) :
    (loopCheckpoint s1).job.metadataCsvPath = s1.job.metadataCsvPath := by
  unfold loopCheckpoint; split <;> rfl

lemma cp_errDetail (s1 : LoopState) :
    (loopCheckpoint s1).job.errorsDetail = s1.job.errorsDetail := by
  unfold loopCheckpoint; split <;> rfl

lemma cp_errMsg (s1 : LoopState) :
    (loopCheckpoint s1).job.errorMessage = s1.job.errorMessage := by
  unfold loopCheckpoint; split <;> rfl

lemma loopStep_processed (A : List PdfFile)
    (C : BatchInvoiceMetadata → Except String Unit) (od : Path)
    (s : LoopState) (m : BatchInvoiceMetadata) :
    (loopStep A C od s m).processed =
      s.processed + (if (itemErrOf A C m).isNone then 1 else 0) := by
  unfold loopStep
  rw [cp_processed]
  unfold itemErrOf
  cases h : processInvoice A C m <;> simp [h]

lemma loopStep_errors (A : List PdfFile)
    (C : BatchInvoiceMetadata → Except String Unit) (od : Path)
    (s : LoopState) (m : BatchInvoiceMetadata) :
    (loopStep A C od s m).errors = s.errors ++ (itemErrOf A C m).toList := by
  unfold loopStep
  rw [cp_errors]
  unfold itemErrOf
  cases h : processInvoice A C m <;> simp [h]

lemma loopStep_job_keep (A : List PdfFile)
    (C : BatchInvoiceMetadata → Except String Unit) (od : Path)
    (s : LoopState) (m : BatchInvoiceMetadata) :
    (loopStep A C od s m).job.totalInvoices = s.job.totalInvoices
    ∧ (loopStep A C od s m).job.status = s.job.status
    ∧ (loopStep A C od s m).job.publicId = s.job.publicId
    ∧ (loopStep A C od s m).job.inputZipPath = s.job.inputZipPath
    ∧ (loopStep A C od s m).job.metadataCsvPath = s.job.metadataCsvPath
    ∧ (loopStep A C od s m).job.errorsDetail = s.job.errorsDetail
    ∧ (loopStep A C od s m).job.errorMessage = s.job.errorMessage := by
  unfold loopStep
  rw [cp_total, cp_status, cp_publicId, cp_inputZip, cp_csv, cp_errDetail, cp_errMsg]
  cases h : processInvoice A C m <;> simp [h]

lemma foldl_processed (A : List PdfFile)
    (C : BatchInvoiceMetadata → Except String Unit) (od : Path)
    (ms : List BatchInvoiceMetadata) :
    ∀ s : LoopState,
      (ms.foldl (loopStep A C od) s).processed = s.processed + okCount A C ms := by
  induction ms with
  | nil => intro s; simp [okCount]
  | cons m ms ih =>
    intro s
    rw [List.foldl_cons, ih, loopStep_processed]
    unfold okCount
    rw [List.filter_cons]
    cases hi : itemErrOf A C m
    all_goals simp [hi]
    all_goals omega

lemma foldl_errors (A : List PdfFile)
    (C : BatchInvoiceMetadata → Except String Unit) (od : Path)
    (ms : List BatchInvoiceMetadata) :
    ∀ s : LoopState,
      (ms.foldl (loopStep A C od) s).errors = s.errors ++ errorsOf A C ms := by
  induction ms with
  | nil => intro s; simp [errorsOf]
  | cons m ms ih =>
    intro s
    rw [List.foldl_cons, ih, loopStep_errors]
    unfold errorsOf
    rw [List.filterMap_cons]
    cases h : itemErrOf A C m <;> simp [errorsOf]

lemma foldl_job_keep (A : List PdfFile)
    (C : BatchInvoiceMetadata → Except String Unit) (od : Path)
    (ms : List BatchInvoiceMetadata) :
    ∀ s : LoopState,
      (ms.foldl (loopStep A C od) s).job.totalInvoices = s.job.totalInvoices
      ∧ (ms.foldl (loopStep A C od) s).job.status = s.job.status
      ∧ (ms.foldl (loopStep A C od) s).job.publicId = s.job.publicId
      ∧ (ms.foldl (loopStep A C od) s).job.inputZipPath = s.job.inputZipPath
      ∧ (ms.foldl (loopStep A C od) s).job.metadataCsvPath = s.job.metadataCsvPath
      ∧ (ms.foldl (loopStep A C od) s).job.errorsDetail = s.job.errorsDetail
      ∧ (ms.foldl (loopStep A C od) s).job.errorMessage = s.job.errorMessage := by
  induction ms with
  | nil => intro s; simp
  | cons m ms ih =>
    intro s
    rw [List.foldl_cons]
    have h1 := ih (loopStep A C od s m)
    have h2 := loopStep_job_keep A C od s m
    exact ⟨h1.1.trans h2.1, h1.2.1.trans h2.2.1, h1.2.2.1.trans h2.2.2.1,
      h1.2.2.2.1.trans h2.2.2.2.1, h1.2.2.2.2.1.trans h2.2.2.2.2.1,
      h1.2.2.2.2.2.1.trans h2.2.2.2.2.2.1, h1.2.2.2.2.2.2.trans h2.2.2.2.2.2.2⟩

lemma okCount_add_errors (A : List PdfFile)
    (C : BatchInvoiceMetadata → Except String Unit)
    (ms : List BatchInvoiceMetadata) :
    okCount A C ms + (errorsOf A C ms).length = ms.length := by
  induction ms with
  | nil => simp [okCount, errorsOf]
  | cons m ms ih =>
    unfold okCount errorsOf at *
    rw [List.filter_cons, List.filterMap_cons]
    cases h : itemErrOf A C m
    all_goals simp [h]
    all_goals omega

/-! ### Snapshot-invariant lemmas -/

lemma snapOk_iff (j : Job) : snapOk j = true ↔ SnapOkP j := by
  unfold snapOk SnapOkP
  simp only [Bool.and_eq_true, Bool.or_eq_true, decide_eq_true_eq,
    Bool.not_eq_true', decide_eq_false_iff_not, beq_iff_eq]
  tauto

lemma SnapOkP_markFailed (msg : String) (det : Option (List ItemError))
    (now : Nat) (j : Job) (h : SnapOkP j) : SnapOkP (markFailed msg det now j) := by
  unfold SnapOkP markFailed at *
  refine ⟨h.1, ?_, ?_⟩ <;> intro hc <;> simp at hc

lemma SnapOkP_markCompleted (now : Nat) (zip : Path) (size : Nat) (j : Job)
    (h : SnapOkP j) : SnapOkP (markCompleted now zip size j) := by
  unfold SnapOkP markCompleted at *
  refine ⟨h.1, ?_, ?_⟩
  · intro hc; simp at hc
  · intro _; rfl

lemma loopCheckpoint_good (s1 : LoopState)
    (hst : s1.job.status = BatchJobStatus.processing)
    (hsum : s1.processed + s1.errors.length ≤ s1.job.totalInvoices)
    (hj : SnapOkP s1.job)
    (hs : ∀ j ∈ s1.snaps, SnapOkP j) :
    SnapOkP (loopCheckpoint s1).job
    ∧ (∀ j ∈ (loopCheckpoint s1).snaps, SnapOkP j) := by
  have hup : SnapOkP (updateProgress s1.processed s1.errors.length s1.job) := by
    unfold SnapOkP updateProgress
    refine ⟨hsum, fun _ => rfl, fun hc => ?_⟩
    have h2 : s1.job.status = BatchJobStatus.completed := hc
    rw [hst] at h2
    cases h2
  unfold loopCheckpoint
  split
  · refine ⟨hup, fun j hjj => ?_⟩
    rcases List.mem_append.1 hjj with hl | hr
    · exact hs j hl
    · rcases List.mem_singleton.1 hr with rfl
      exact hup
  · exact ⟨hj, hs⟩

lemma loopStep_snap_good (A : List PdfFile)
    (C : BatchInvoiceMetadata → Except String Unit) (od : Path)
    (s : LoopState) (m : BatchInvoiceMetadata)
    (hst : s.job.status = BatchJobStatus.processing)
    (hsum : s.processed + s.errors.length + 1 ≤ s.job.totalInvoices)
    (hj : SnapOkP s.job)
    (hs : ∀ j ∈ s.snaps, SnapOkP j) :
    SnapOkP (loopStep A C od s m).job
    ∧ (∀ j ∈ (loopStep A C od s m).snaps, SnapOkP j) := by
  unfold loopStep
  cases h : processInvoice A C m with
  | ok v =>
    exact loopCheckpoint_good _ hst (by simp; omega) hj hs
  | error er =>
    exact loopCheckpoint_good _ hst (by simp; omega) hj hs

lemma foldl_snaps_good (A : List PdfFile)
    (C : BatchInvoiceMetadata → Except String Unit) (od : Path)
    (ms : List BatchInvoiceMetadata) :
    ∀ s : LoopState,
      s.job.status = BatchJobStatus.processing →
      s.processed + s.errors.length + ms.length ≤ s.job.totalInvoices →
      SnapOkP s.job →
      (∀ j ∈ s.snaps, SnapOkP j) →
      SnapOkP (ms.foldl (loopStep A C od) s).job
      ∧ (∀ j ∈ (ms.foldl (loopStep A C od) s).snaps, SnapOkP j) := by
  induction ms with
  | nil => intro s _ _ hj hs; exact ⟨hj, hs⟩
  | cons m ms ih =>
    intro s hst hsum hj hs
    simp only [List.length_cons] at hsum
    rw [List.foldl_cons]
    have hkeep := loopStep_job_keep A C od s m
    have hsg := loopStep_snap_good A C od s m hst (by omega) hj hs
    apply ih
    · rw [hkeep.2.1]; exact hst
    · rw [loopStep_processed, loopStep_errors, hkeep.1]
      cases hi : itemErrOf A C m
      all_goals simp [hi]
      all_goals omega
    · exact hsg.1
    · exact hsg.2

lemma correctTotals_totalInvoices (n : Nat) (j : Job) :
    (correctTotals n j).totalInvoices = n := by
  unfold correctTotals
  split
  · rfl
  · rename_i h
    exact (not_not.1 h).symm

lemma correctTotals_keep (n : Nat) (j : Job) :
    (correctTotals n j).status = j.status
    ∧ (correctTotals n j).processedInvoices = j.processedInvoices
    ∧ (correctTotals n j).failedInvoices = j.failedInvoices
    ∧ (correctTotals n j).progress = j.progress
    ∧ (correctTotals n j).publicId = j.publicId
    ∧ (correctTotals n j).inputZipPath = j.inputZipPath
    ∧ (correctTotals n j).metadataCsvPath = j.metadataCsvPath
    ∧ (correctTotals n j).errorsDetail = j.errorsDetail
    ∧ (correctTotals n j).errorMessage = j.errorMessage := by
  unfold correctTotals
  split <;> simp

lemma afterLoop_snaps_good (e : Env) (pid : String) (metaLen : Nat)
    (st : LoopState) (hj : SnapOkP st.job) (hs : ∀ j ∈ st.snaps, SnapOkP j) :
    (∀ msg mid, afterLoop e pid metaLen st = Except.error (msg, mid) →
      (∀ j ∈ mid.snaps, SnapOkP j) ∧ SnapOkP mid.job)
    ∧ (∀ out, afterLoop e pid metaLen st = Except.ok out →
      ∀ j ∈ out.snaps, SnapOkP j) := by
  have hFail : SnapOkP (markFailed "Toutes les factures ont échoué"
      (some st.errors) e.now st.job) := SnapOkP_markFailed _ _ _ _ hj
  unfold afterLoop
  cases hpk : e.packResult with
  | error m0 =>
    refine ⟨?_, ?_⟩
    · intro msg mid h
      simp only [Except.error.injEq, Prod.mk.injEq] at h
      obtain ⟨-, rfl⟩ := h
      exact ⟨hs, hj⟩
    · intro out h
      exact Except.noConfusion h
  | ok size =>
    have hComp : SnapOkP (markCompleted e.now (outputZipOf pid) size st.job) :=
      SnapOkP_markCompleted _ _ _ _ hj
    have hCompE : SnapOkP
        { markCompleted e.now (outputZipOf pid) size st.job with
          errorsDetail := some st.errors } := hComp
    have hmemFail : ∀ j, j ∈ st.snaps ++
        [markFailed "Toutes les factures ont échoué" (some st.errors) e.now st.job] →
        SnapOkP j := by
      intro j hjj
      rcases List.mem_append.1 hjj with hl | hr
      · exact hs j hl
      · rw [List.mem_singleton.1 hr]
        exact hFail
    have hmemComp : ∀ j, j ∈ st.snaps ++
        [markCompleted e.now (outputZipOf pid) size st.job] → SnapOkP j := by
      intro j hjj
      rcases List.mem_append.1 hjj with hl | hr
      · exact hs j hl
      · rw [List.mem_singleton.1 hr]
        exact hComp
    have hmemCompE : ∀ j, j ∈ st.snaps ++
        [markCompleted e.now (outputZipOf pid) size st.job,
          { markCompleted e.now (outputZipOf pid) size st.job with
            errorsDetail := some st.errors }] → SnapOkP j := by
      intro j hjj
      rcases List.mem_append.1 hjj with hl | hr
      · exact hs j hl
      · rcases List.mem_cons.1 hr with h1 | hr2
        · rw [h1]
          exact hComp
        · rw [List.mem_singleton.1 hr2]
          exact hCompE
    rcases Decidable.em (st.errors.length = metaLen) with hall | hall
    · simp only [if_pos hall]
      cases hch : chargeStep e.userLookup st.processed with
      | error m1 =>
        refine ⟨?_, ?_⟩
        · intro msg mid h
          simp only [Except.error.injEq, Prod.mk.injEq] at h
          obtain ⟨-, rfl⟩ := h
          exact ⟨fun j hjj => hmemFail j hjj, hFail⟩
        · intro out h
          exact Except.noConfusion h
      | ok u2 =>
        cases hlg : e.logResult with
        | error m1 =>
          refine ⟨?_, ?_⟩
          · intro msg mid h
            simp only [Except.error.injEq, Prod.mk.injEq] at h
            obtain ⟨-, rfl⟩ := h
            exact ⟨fun j hjj => hmemFail j hjj, hFail⟩
          · intro out h
            exact Except.noConfusion h
        | ok _ =>
          refine ⟨?_, ?_⟩
          · intro msg mid h
            exact Except.noConfusion h
          · intro out h
            simp only [Except.ok.injEq] at h
            subst h
            exact fun j hjj => hmemFail j hjj
    · simp only [if_neg hall]
      rcases Decidable.em (0 < st.errors.length) with he | he
      · simp only [if_pos he]
        cases hch : chargeStep e.userLookup st.processed with
        | error m1 =>
          refine ⟨?_, ?_⟩
          · intro msg mid h
            simp only [Except.error.injEq, Prod.mk.injEq] at h
            obtain ⟨-, rfl⟩ := h
            exact ⟨fun j hjj => hmemCompE j hjj, hCompE⟩
          · intro out h
            exact Except.noConfusion h
        | ok u2 =>
          cases hlg : e.logResult with
          | error m1 =>
            refine ⟨?_, ?_⟩
            · intro msg mid h
              simp only [Except.error.injEq, Prod.mk.injEq] at h
              obtain ⟨-, rfl⟩ := h
              exact ⟨fun j hjj => hmemCompE j hjj, hCompE⟩
            · intro out h
              exact Except.noConfusion h
          | ok _ =>
            refine ⟨?_, ?_⟩
            · intro msg mid h
              exact Except.noConfusion h
            · intro out h
              simp only [Except.ok.injEq] at h
              subst h
              exact fun j hjj => hmemCompE j hjj
      · simp only [if_neg he]
        cases hch : chargeStep e.userLookup st.processed with
        | error m1 =>
          refine ⟨?_, ?_⟩
          · intro msg mid h
            simp only [Except.error.injEq, Prod.mk.injEq] at h
            obtain ⟨-, rfl⟩ := h
            exact ⟨fun j hjj => hmemComp j hjj, hComp⟩
          · intro out h
            exact Except.noConfusion h
        | ok u2 =>
          cases hlg : e.logResult with
          | error m1 =>
            refine ⟨?_, ?_⟩
            · intro msg mid h
              simp only [Except.error.injEq, Prod.mk.injEq] at h
              obtain ⟨-, rfl⟩ := h
              exact ⟨fun j hjj => hmemComp j hjj, hComp⟩
            · intro out h
              exact Except.noConfusion h
          | ok _ =>
            refine ⟨?_, ?_⟩
            · intro msg mid h
              exact Except.noConfusion h
            · intro out h
              simp only [Except.ok.injEq] at h
              subst h
              exact fun j hjj => hmemComp j hjj

lemma foldAfter_snaps_good (e : Env) (pid : String)
    (metadata : List BatchInvoiceMetadata) (j2 : Job) (snaps2 : List Job)
    (fs1 : FS)
    (hst : j2.status = BatchJobStatus.processing)
    (htot : j2.totalInvoices = metadata.length)
    (hj2 : SnapOkP j2)
    (hs2 : ∀ j ∈ snaps2, SnapOkP j) :
    (∀ msg mid, afterLoop e pid metadata.length
        (metadata.foldl (loopStep e.archive e.compose (outputDirOf pid))
          ⟨0, [], j2, snaps2, fs1⟩) = Except.error (msg, mid) →
      (∀ j ∈ mid.snaps, SnapOkP j) ∧ SnapOkP mid.job)
    ∧ (∀ out, afterLoop e pid metadata.length
        (metadata.foldl (loopStep e.archive e.compose (outputDirOf pid))
          ⟨0, [], j2, snaps2, fs1⟩) = Except.ok out →
      ∀ j ∈ out.snaps, SnapOkP j) := by
  have hfold := foldl_snaps_good e.archive e.compose (outputDirOf pid) metadata
    ⟨0, [], j2, snaps2, fs1⟩ hst (by simp [htot]) hj2 hs2
  exact afterLoop_snaps_good e pid metadata.length _ hfold.1 hfold.2

lemma body_snaps_good (e : Env) (j0 : Job)
    (h0 : j0.processedInvoices = 0) (h1 : j0.failedInvoices = 0)
    (h2 : j0.progress = 0) :
    (∀ msg mid, processJobBody e j0 = Except.error (msg, mid) →
      (∀ j ∈ mid.snaps, SnapOkP j) ∧ SnapOkP mid.job)
    ∧ (∀ out, processJobBody e j0 = Except.ok out →
      ∀ j ∈ out.snaps, SnapOkP j) := by
  have hj1 : SnapOkP (startProcessing e.now j0) := by
    unfold SnapOkP
    refine ⟨?_, fun _ => ?_, fun hc => ?_⟩
    · show j0.processedInvoices + j0.failedInvoices ≤ j0.totalInvoices
      simp [h0, h1]
    · show j0.progress = jsRound100 j0.processedInvoices j0.totalInvoices
      rw [h0, h2, jsRound100_zero]
    · exact absurd (show BatchJobStatus.processing = BatchJobStatus.completed from hc)
        (by simp)
  unfold processJobBody
  cases hx : e.extractResult with
  | error m0 =>
    refine ⟨?_, ?_⟩
    · intro msg mid h
      simp only [Except.error.injEq, Prod.mk.injEq] at h
      obtain ⟨-, rfl⟩ := h
      refine ⟨?_, hj1⟩
      intro j hjj
      rw [List.mem_singleton.1 hjj]
      exact hj1
    · intro out h
      exact Except.noConfusion h
  | ok _ =>
    cases hp : e.parseResult with
    | error m0 =>
      refine ⟨?_, ?_⟩
      · intro msg mid h
        simp only [Except.error.injEq, Prod.mk.injEq] at h
        obtain ⟨-, rfl⟩ := h
        refine ⟨?_, hj1⟩
        intro j hjj
        rw [List.mem_singleton.1 hjj]
        exact hj1
      · intro out h
        exact Except.noConfusion h
    | ok metadata =>
      rcases Decidable.em (10000 < metadata.length) with hlim | hlim
      · simp only [if_pos hlim]
        refine ⟨?_, ?_⟩
        · intro msg mid h
          simp only [Except.error.injEq, Prod.mk.injEq] at h
          obtain ⟨-, rfl⟩ := h
          refine ⟨?_, hj1⟩
          intro j hjj
          rw [List.mem_singleton.1 hjj]
          exact hj1
        · intro out h
          exact Except.noConfusion h
      · simp only [if_neg hlim]
        have hkp := correctTotals_keep metadata.length (startProcessing e.now j0)
        have hj2 : SnapOkP (correctTotals metadata.length
            (startProcessing e.now j0)) := by
          unfold SnapOkP
          rw [hkp.2.1, hkp.2.2.1, hkp.2.2.2.1, hkp.1, correctTotals_totalInvoices]
          refine ⟨?_, fun _ => ?_, fun hc => ?_⟩
          · show j0.processedInvoices + j0.failedInvoices ≤ metadata.length
            simp [h0, h1]
          · show j0.progress = jsRound100 j0.processedInvoices metadata.length
            rw [h0, h2, jsRound100_zero]
          · exact absurd
              (show BatchJobStatus.processing = BatchJobStatus.completed from hc)
              (by simp)
        have hs2 : ∀ j ∈ (if metadata.length ≠ (startProcessing e.now j0).totalInvoices
            then [startProcessing e.now j0]
              ++ [correctTotals metadata.length (startProcessing e.now j0)]
            else [startProcessing e.now j0]), SnapOkP j := by
          intro j hjj
          rcases Decidable.em
            (metadata.length ≠ (startProcessing e.now j0).totalInvoices) with hc | hc
          · rw [if_pos hc] at hjj
            rcases List.mem_append.1 hjj with hl | hr
            · rw [List.mem_singleton.1 hl]
              exact hj1
            · rw [List.mem_singleton.1 hr]
              exact hj2
          · rw [if_neg hc] at hjj
            rw [List.mem_singleton.1 hjj]
            exact hj1
        exact foldAfter_snaps_good e j0.publicId metadata _ _ _
          (by rw [hkp.1]; rfl) (correctTotals_totalInvoices _ _) hj2 hs2

lemma run_snaps_good (e : Env) (j0 : Job)
    (h0 : j0.processedInvoices = 0) (h1 : j0.failedInvoices = 0)
    (h2 : j0.progress = 0) :
    ∀ j ∈ (processJob e j0).snaps, SnapOkP j := by
  have hb := body_snaps_good e j0 h0 h1 h2
  unfold processJob
  cases hpb : processJobBody e j0 with
  | ok out => exact hb.2 out hpb
  | error p =>
    obtain ⟨msg, mid⟩ := p
    have hmid := hb.1 msg mid hpb
    intro j hjj
    rcases List.mem_append.1 hjj with hl | hr
    · exact hmid.1 j hl
    · rw [List.mem_singleton.1 hr]
      exact SnapOkP_markFailed _ _ _ _ hmid.2

lemma afterLoop_happy (e : Env) (pid : String) (metaLen : Nat)
    (st : LoopState) (sz : Nat) (u2 : Option User)
    (hpk : e.packResult = Except.ok sz)
    (hch : chargeStep e.userLookup st.processed = Except.ok u2)
    (hlg : e.logResult = Except.ok ()) :
    ∃ out, afterLoop e pid metaLen st = Except.ok out
      ∧ out.result =
          { success := decide (st.errors.length < metaLen)
            totalProcessed := st.processed
            totalFailed := st.errors.length
            outputZipPath := some (outputZipOf pid)
            outputSizeBytes := some sz
            errors := st.errors }
      ∧ out.user = u2
      ∧ out.job = (if st.errors.length = metaLen
          then markFailed "Toutes les factures ont échoué" (some st.errors)
            e.now st.job
          else if 0 < st.errors.length
            then { markCompleted e.now (outputZipOf pid) sz st.job with
                errorsDetail := some st.errors }
            else markCompleted e.now (outputZipOf pid) sz st.job)
      ∧ out.fs = rmFileOpt st.job.metadataCsvPath (rmFileOpt st.job.inputZipPath
          (rmRec (inputDirOf pid) (st.fs ++ [outputZipOf pid]))) := by
  unfold afterLoop
  rw [hpk, hch, hlg]
  rcases Decidable.em (st.errors.length = metaLen) with hall | hall
  · simp only [if_pos hall]
    exact ⟨_, rfl, rfl, rfl, rfl, rfl⟩
  · simp only [if_neg hall]
    rcases Decidable.em (0 < st.errors.length) with he | he
    · simp only [if_pos he]
      exact ⟨_, rfl, rfl, rfl, rfl, rfl⟩
    · simp only [if_neg he]
      exact ⟨_, rfl, rfl, rfl, rfl, rfl⟩

lemma body_nonfatal (e : Env) (j0 : Job) (ms : List BatchInvoiceMetadata)
    (hx : e.extractResult = Except.ok ())
    (hp : e.parseResult = Except.ok ms)
    (hlim : ms.length ≤ 10000) :
    processJobBody e j0 = afterLoop e j0.publicId ms.length
      (ms.foldl (loopStep e.archive e.compose (outputDirOf j0.publicId))
        ⟨0, [],
          correctTotals ms.length (startProcessing e.now j0),
          (if ms.length ≠ (startProcessing e.now j0).totalInvoices
            then [startProcessing e.now j0]
              ++ [correctTotals ms.length (startProcessing e.now j0)]
            else [startProcessing e.now j0]),
          [uploadZipPathOf e.uploadDirId, uploadCsvPathOf e.uploadDirId]
            ++ e.archive.map (fun f => inputDirOf j0.publicId ++ [f.name])⟩) := by
  unfold processJobBody
  rw [hx, hp]
  show (if 10000 < ms.length then _ else _) = _
  rw [if_neg (show ¬ 10000 < ms.length by omega)]

lemma mem_rmFile {p f : Path} {fs : FS} :
    p ∈ rmFile f fs ↔ p ∈ fs ∧ ¬ p = f := by
  unfold rmFile
  simp [List.mem_filter]

lemma mem_rmRec {p d : Path} {fs : FS} :
    p ∈ rmRec d fs ↔ p ∈ fs ∧ leadsTo d p = false := by
  unfold rmRec
  simp [List.mem_filter, Bool.not_eq_true']

lemma mem_rmFileOpt {p : Path} {o : Option Path} {fs : FS}
    (h : p ∈ rmFileOpt o fs) : p ∈ fs := by
  cases o with
  | none => exact h
  | some f => exact (mem_rmFile.1 h).1

lemma body_nonfatal_ex (e : Env) (j0 : Job) (ms : List BatchInvoiceMetadata)
    (hx : e.extractResult = Except.ok ())
    (hp : e.parseResult = Except.ok ms)
    (hlim : ms.length ≤ 10000) :
    ∃ st : LoopState,
      processJobBody e j0 = afterLoop e j0.publicId ms.length st
      ∧ st.processed = okCount e.archive e.compose ms
      ∧ st.errors = errorsOf e.archive e.compose ms
      ∧ st.job.errorsDetail = j0.errorsDetail
      ∧ st.job.inputZipPath = j0.inputZipPath
      ∧ st.job.metadataCsvPath = j0.metadataCsvPath := by
  refine ⟨_, body_nonfatal e j0 ms hx hp hlim, ?_, ?_, ?_, ?_, ?_⟩
  · rw [foldl_processed]
    simp
  · rw [foldl_errors]
    simp
  · rw [(foldl_job_keep e.archive e.compose (outputDirOf j0.publicId) ms
      _).2.2.2.2.2.1]
    show (correctTotals ms.length (startProcessing e.now j0)).errorsDetail
      = j0.errorsDetail
    rw [(correctTotals_keep _ _).2.2.2.2.2.2.2.1]
    rfl
  · rw [(foldl_job_keep e.archive e.compose (outputDirOf j0.publicId) ms
      _).2.2.2.1]
    show (correctTotals ms.length (startProcessing e.now j0)).inputZipPath
      = j0.inputZipPath
    rw [(correctTotals_keep _ _).2.2.2.2.2.1]
    rfl
  · rw [(foldl_job_keep e.archive e.compose (outputDirOf j0.publicId) ms
      _).2.2.2.2.1]
    show (correctTotals ms.length (startProcessing e.now j0)).metadataCsvPath
      = j0.metadataCsvPath
    rw [(correctTotals_keep _ _).2.2.2.2.2.2.1]
    rfl

lemma run_happy (e : Env) (j0 : Job) (ms : List BatchInvoiceMetadata)
    (sz : Nat) (u2 : Option User)
    (hx : e.extractResult = Except.ok ())
    (hp : e.parseResult = Except.ok ms)
    (hlim : ms.length ≤ 10000)
    (hpk : e.packResult = Except.ok sz)
    (hch : chargeStep e.userLookup (okCount e.archive e.compose ms)
      = Except.ok u2)
    (hlg : e.logResult = Except.ok ()) :
    (processJob e j0).result.success
        = decide ((errorsOf e.archive e.compose ms).length < ms.length)
    ∧ (processJob e j0).result.totalProcessed = okCount e.archive e.compose ms
    ∧ (processJob e j0).result.totalFailed
        = (errorsOf e.archive e.compose ms).length
    ∧ (processJob e j0).result.errors = errorsOf e.archive e.compose ms
    ∧ (processJob e j0).result.outputZipPath = some (outputZipOf j0.publicId)
    ∧ (processJob e j0).result.outputSizeBytes = some sz
    ∧ (processJob e j0).user = u2
    ∧ ((errorsOf e.archive e.compose ms).length = ms.length →
        (processJob e j0).job.status = BatchJobStatus.failed
        ∧ (processJob e j0).job.errorMessage
            = some "Toutes les factures ont échoué"
        ∧ (processJob e j0).job.errorsDetail
            = some (errorsOf e.archive e.compose ms))
    ∧ ((errorsOf e.archive e.compose ms).length ≠ ms.length →
        (processJob e j0).job.status = BatchJobStatus.completed
        ∧ (processJob e j0).job.outputZipPath = some (outputZipOf j0.publicId)
        ∧ (processJob e j0).job.outputSizeBytes = some sz
        ∧ (processJob e j0).job.downloadExpiresAt = some (e.now + dayMs)
        ∧ (processJob e j0).job.progress = 100
        ∧ (0 < (errorsOf e.archive e.compose ms).length →
            (processJob e j0).job.errorsDetail
              = some (errorsOf e.archive e.compose ms))
        ∧ ((errorsOf e.archive e.compose ms).length = 0 →
            (processJob e j0).job.errorsDetail = j0.errorsDetail)) := by
  obtain ⟨st, hb, hstp, hste, hstd, -, -⟩ := body_nonfatal_ex e j0 ms hx hp hlim
  have hch2 : chargeStep e.userLookup st.processed = Except.ok u2 := by
    rw [hstp]
    exact hch
  obtain ⟨out, hout, hres, huser, hjob, -⟩ :=
    afterLoop_happy e j0.publicId ms.length st sz u2 hpk hch2 hlg
  have hpj : processJob e j0 = out := by
    unfold processJob
    rw [hb, hout]
  rw [hpj]
  refine ⟨?_, ?_, ?_, ?_, ?_, ?_, huser, ?_, ?_⟩
  · rw [hres, ← hste]
  · rw [hres]
    exact hstp
  · rw [hres, ← hste]
  · rw [hres]
    exact hste
  · rw [hres]
  · rw [hres]
  · intro hall
    have hall2 : st.errors.length = ms.length := by rw [hste]; exact hall
    rw [hjob, if_pos hall2]
    refine ⟨rfl, rfl, ?_⟩
    show some st.errors = some (errorsOf e.archive e.compose ms)
    rw [hste]
  · intro hall
    have hall2 : st.errors.length ≠ ms.length := by rw [hste]; exact hall
    rw [hjob, if_neg hall2]
    rcases Decidable.em (0 < st.errors.length) with he | he
    · rw [if_pos he]
      refine ⟨rfl, rfl, rfl, rfl, rfl, fun _ => ?_, fun h0 => ?_⟩
      · show some st.errors = some (errorsOf e.archive e.compose ms)
        rw [hste]
      · exfalso
        rw [hste] at he
        omega
    · rw [if_neg he]
      refine ⟨rfl, rfl, rfl, rfl, rfl, fun hpos => ?_, fun _ => ?_⟩
      · exfalso
        rw [hste] at he
        omega
      · show st.job.errorsDetail = j0.errorsDetail
        exact hstd

lemma facturxName_len (pid : String) :
    ("facturx-" ++ pid ++ ".zip").length = 12 + pid.length := by
  rw [String.length_append, String.length_append]
  have h1 : "facturx-".length = 8 := by decide
  have h2 : ".zip".length = 4 := by decide
  omega

lemma facturxName_ne_twelve (pid : String) (q : String) (hq : q.length = 12)
    (hlen : 0 < pid.length) : ¬ q = "facturx-" ++ pid ++ ".zip" := by
  intro h
  have h2 := congrArg String.length h
  rw [facturxName_len, hq] at h2
  omega

lemma input_ne_facturx (pid : String) :
    ¬ ("input" = "facturx-" ++ pid ++ ".zip") := by
  intro h
  have h2 := congrArg String.length h
  rw [facturxName_len] at h2
  have h1 : "input".length = 5 := by decide
  omega

lemma uploadZip_ne_outZip (uid pid : String) (hlen : 0 < pid.length) :
    ¬ uploadZipPathOf uid = outputZipOf pid := by
  intro h
  simp only [uploadZipPathOf, outputZipOf, jobDirOf, batchesRoot,
    List.cons_append, List.nil_append, List.cons.injEq, and_true] at h
  exact facturxName_ne_twelve pid "invoices.zip" (by decide) hlen h.2.2.2

lemma uploadCsv_ne_outZip (uid pid : String) (hlen : 0 < pid.length) :
    ¬ uploadCsvPathOf uid = outputZipOf pid := by
  intro h
  simp only [uploadCsvPathOf, outputZipOf, jobDirOf, batchesRoot,
    List.cons_append, List.nil_append, List.cons.injEq, and_true] at h
  exact facturxName_ne_twelve pid "metadata.csv" (by decide) hlen h.2.2.2

lemma inputDir_not_over_outZip (pid : String) :
    leadsTo (inputDirOf pid) (outputZipOf pid) = false := by
  simp only [inputDirOf, outputZipOf, jobDirOf, batchesRoot,
    List.cons_append, List.nil_append]
  show (("tmp" == "tmp") && (("batches" == "batches") && ((pid == pid)
    && (("input" == "facturx-" ++ pid ++ ".zip") && leadsTo [] [])))) = false
  have h1 : ("input" == "facturx-" ++ pid ++ ".zip") = false := by
    rw [beq_eq_false_iff_ne]
    exact input_ne_facturx pid
  simp [h1]

lemma run_happy_fs (e : Env) (j0 : Job) (ms : List BatchInvoiceMetadata)
    (sz : Nat) (u2 : Option User)
    (hx : e.extractResult = Except.ok ())
    (hp : e.parseResult = Except.ok ms)
    (hlim : ms.length ≤ 10000)
    (hpk : e.packResult = Except.ok sz)
    (hch : chargeStep e.userLookup (okCount e.archive e.compose ms)
      = Except.ok u2)
    (hlg : e.logResult = Except.ok ())
    (hzip : j0.inputZipPath = some (uploadZipPathOf e.uploadDirId))
    (hcsv : j0.metadataCsvPath = some (uploadCsvPathOf e.uploadDirId))
    (hzn : ¬ uploadZipPathOf e.uploadDirId = outputZipOf j0.publicId)
    (hcn : ¬ uploadCsvPathOf e.uploadDirId = outputZipOf j0.publicId)
    (hin : leadsTo (inputDirOf j0.publicId) (outputZipOf j0.publicId) = false) :
    uploadZipPathOf e.uploadDirId ∉ (processJob e j0).fs
    ∧ uploadCsvPathOf e.uploadDirId ∉ (processJob e j0).fs
    ∧ (∀ p ∈ (processJob e j0).fs, leadsTo (inputDirOf j0.publicId) p = false)
    ∧ outputZipOf j0.publicId ∈ (processJob e j0).fs := by
  obtain ⟨st, hb, hstp, hste, hstd, hstz, hstc⟩ := body_nonfatal_ex e j0 ms hx hp hlim
  have hch2 : chargeStep e.userLookup st.processed = Except.ok u2 := by
    rw [hstp]
    exact hch
  obtain ⟨out, hout, -, -, -, hfs⟩ :=
    afterLoop_happy e j0.publicId ms.length st sz u2 hpk hch2 hlg
  have hpj : processJob e j0 = out := by
    unfold processJob
    rw [hb, hout]
  rw [hpj, hfs, hstc, hcsv, hstz, hzip]
  simp only [rmFileOpt]
  refine ⟨?_, ?_, ?_, ?_⟩
  · intro h
    exact (mem_rmFile.1 (mem_rmFile.1 h).1).2 rfl
  · intro h
    exact (mem_rmFile.1 h).2 rfl
  · intro p h
    exact (mem_rmRec.1 (mem_rmFile.1 (mem_rmFile.1 h).1).1).2
  · refine mem_rmFile.2 ⟨mem_rmFile.2 ⟨mem_rmRec.2 ⟨?_, hin⟩, ?_⟩, ?_⟩
    · exact List.mem_append.2 (Or.inr (List.mem_singleton.2 rfl))
    · intro hh
      exact hzn hh.symm
    · intro hh
      exact hcn hh.symm

lemma run_fatal (e : Env) (j0 : Job) (msg : String) (mid : MidState)
    (h : processJobBody e j0 = Except.error (msg, mid)) :
    processJob e j0 =
      { result :=
          { success := false
            totalProcessed := 0
            totalFailed := mid.job.totalInvoices
            outputZipPath := none
            outputSizeBytes := none
            errors := [⟨"*", msg⟩] }
        job := markFailed msg none e.now mid.job
        snaps := mid.snaps ++ [markFailed msg none e.now mid.job]
        fs := rmRec (jobDirOf j0.publicId) mid.fs
        user := e.userLookup } := by
  unfold processJob
  rw [h]

lemma chargeForInvoices_spec (n : Nat) (u v : User)
    (h : chargeForInvoices n u = Except.ok v) :
    v.invoicesUsedThisMonth = u.invoicesUsedThisMonth + n
    ∧ ((u.planIsFree || u.hasActiveSub) = true →
        v.creditBalance = u.creditBalance)
    ∧ ((u.planIsFree || u.hasActiveSub) = false →
        v.creditBalance + n * 10 = u.creditBalance)
    ∧ (n = 0 → v = u) := by
  unfold chargeForInvoices at h
  by_cases h1 : (u.planIsFree || u.hasActiveSub) = true
  · rw [if_pos h1] at h
    simp only [Except.ok.injEq] at h
    subst h
    refine ⟨rfl, fun _ => rfl, fun hc => ?_, fun hn => ?_⟩
    · rw [h1] at hc
      cases hc
    · subst hn
      simp
  · rw [if_neg h1] at h
    by_cases h2 : u.creditBalance < n * 10
    · rw [if_pos h2] at h
      exact absurd h (by simp)
    · rw [if_neg h2] at h
      simp only [Except.ok.injEq] at h
      subst h
      refine ⟨rfl, fun hc => absurd hc h1, fun _ => ?_, fun hn => ?_⟩
      · show u.creditBalance - n * 10 + n * 10 = u.creditBalance
        omega
      subst hn
      simp

/-! ### Claim theorems -/

/-- C1: for every manifest, a failure while composing a record (PDF not
found, bad magic bytes, XML/embedding error) is caught inside the per-item
loop and appended to the error list as a `{filename, error}` pair, and
processing continues with the next record: on any run whose fatal steps all
succeed, the returned error list is exactly the per-record failure list in
manifest order, the processed count is the number of successful records, and
processed + failed equals the manifest length — no per-item failure aborts
the batch or skips remaining records. -/
theorem C1_per_item_isolation (e : Env) (j0 : Job)
    (ms : List BatchInvoiceMetadata) (sz : Nat) (u2 : Option User)
    (hx : e.extractResult = Except.ok ())
    (hp : e.parseResult = Except.ok ms)
    (hlim : ms.length ≤ 10000)
    (hpk : e.packResult = Except.ok sz)
    (hch : chargeStep e.userLookup (okCount e.archive e.compose ms)
      = Except.ok u2)
    (hlg : e.logResult = Except.ok ()) :
    (processJob e j0).result.errors = errorsOf e.archive e.compose ms
    ∧ (processJob e j0).result.totalProcessed = okCount e.archive e.compose ms
    ∧ (processJob e j0).result.totalProcessed
      + (processJob e j0).result.totalFailed = ms.length := by
  have h := run_happy e j0 ms sz u2 hx hp hlim hpk hch hlg
  refine ⟨h.2.2.2.1, h.2.1, ?_⟩
  rw [h.2.1, h.2.2.1]
  exact okCount_add_errors _ _ _

/-- Witness for C1 at the mixed-failure scenario. -/
theorem C1_per_item_isolation_witness :
    (processJob envMixed jobMixed).result.errors
      = errorsOf envMixed.archive envMixed.compose [mf1, mf2, mf3]
    ∧ (processJob envMixed jobMixed).result.totalProcessed
      = okCount envMixed.archive envMixed.compose [mf1, mf2, mf3]
    ∧ (processJob envMixed jobMixed).result.totalProcessed
      + (processJob envMixed jobMixed).result.totalFailed = 3 :=
  C1_per_item_isolation envMixed jobMixed [mf1, mf2, mf3] 4242 none
    rfl rfl (by decide) rfl rfl rfl

/-- C2: settlement charges the owning user for exactly the number of
successfully processed items at 10 centimes each: the settlement argument is
the success count, the usage counter rises by it, the pay-as-you-go credit
balance falls by success count × 10 (and is untouched on free or subscribed
plans), and a job whose every item failed (success count 0) leaves the user
row unchanged. -/
theorem C2_billing_settlement (e : Env) (j0 : Job)
    (ms : List BatchInvoiceMetadata) (sz : Nat) (u v : User)
    (hx : e.extractResult = Except.ok ())
    (hp : e.parseResult = Except.ok ms)
    (hlim : ms.length ≤ 10000)
    (hpk : e.packResult = Except.ok sz)
    (hu : e.userLookup = some u)
    (hch : chargeForInvoices (okCount e.archive e.compose ms) u = Except.ok v)
    (hlg : e.logResult = Except.ok ()) :
    (processJob e j0).user = some v
    ∧ (processJob e j0).result.totalProcessed = okCount e.archive e.compose ms
    ∧ v.invoicesUsedThisMonth
        = u.invoicesUsedThisMonth + okCount e.archive e.compose ms
    ∧ ((u.planIsFree || u.hasActiveSub) = false →
        v.creditBalance + okCount e.archive e.compose ms * 10 = u.creditBalance)
    ∧ ((u.planIsFree || u.hasActiveSub) = true →
        v.creditBalance = u.creditBalance)
    ∧ (okCount e.archive e.compose ms = 0 → v = u) := by
  have hcs : chargeStep e.userLookup (okCount e.archive e.compose ms)
      = Except.ok (some v) := by
    rw [hu]
    show (match chargeForInvoices (okCount e.archive e.compose ms) u with
      | Except.ok w => Except.ok (some w)
      | Except.error msg => Except.error msg) = Except.ok (some v)
    rw [hch]
  have h := run_happy e j0 ms sz (some v) hx hp hlim hpk hcs hlg
  have hc := chargeForInvoices_spec _ u v hch
  exact ⟨h.2.2.2.2.2.2.1, h.2.1, hc.1, hc.2.2.1, hc.2.1, hc.2.2.2⟩

/-- Witness for C2: mixed-failure scenario owned by a pay-as-you-go user
with 50 centimes: 2 of 3 items succeed, 20 centimes are deducted. -/
theorem C2_billing_settlement_witness :
    (processJob envCredit jobMixed).user = some ⟨false, false, 30, 9⟩
    ∧ (processJob envCredit jobMixed).result.totalProcessed
      = okCount envCredit.archive envCredit.compose [mf1, mf2, mf3]
    ∧ (⟨false, false, 30, 9⟩ : User).invoicesUsedThisMonth
      = uCredit.invoicesUsedThisMonth
        + okCount envCredit.archive envCredit.compose [mf1, mf2, mf3]
    ∧ ((uCredit.planIsFree || uCredit.hasActiveSub) = false →
        (⟨false, false, 30, 9⟩ : User).creditBalance
          + okCount envCredit.archive envCredit.compose [mf1, mf2, mf3] * 10
          = uCredit.creditBalance)
    ∧ ((uCredit.planIsFree || uCredit.hasActiveSub) = true →
        (⟨false, false, 30, 9⟩ : User).creditBalance = uCredit.creditBalance)
    ∧ (okCount envCredit.archive envCredit.compose [mf1, mf2, mf3] = 0 →
        (⟨false, false, 30, 9⟩ : User) = uCredit) :=
  C2_billing_settlement envCredit jobMixed [mf1, mf2, mf3] 4242
    uCredit ⟨false, false, 30, 9⟩ rfl rfl (by decide) rfl rfl rfl rfl

/-- C3: finalization without a fatal error: if every record failed the job is
marked `failed` with the summary message and the full per-item error list;
otherwise it is marked `completed` with the output archive path, its byte
size, a download expiry 24 hours from now, the error list attached when some
(but not all) items failed, and the run still counts as successful. -/
theorem C3_finalization (e : Env) (j0 : Job)
    (ms : List BatchInvoiceMetadata) (sz : Nat) (u2 : Option User)
    (hx : e.extractResult = Except.ok ())
    (hp : e.parseResult = Except.ok ms)
    (hlim : ms.length ≤ 10000)
    (hpk : e.packResult = Except.ok sz)
    (hch : chargeStep e.userLookup (okCount e.archive e.compose ms)
      = Except.ok u2)
    (hlg : e.logResult = Except.ok ()) :
    ((errorsOf e.archive e.compose ms).length = ms.length →
      (processJob e j0).job.status = BatchJobStatus.failed
      ∧ (processJob e j0).job.errorMessage
          = some "Toutes les factures ont échoué"
      ∧ (processJob e j0).job.errorsDetail
          = some (errorsOf e.archive e.compose ms))
    ∧ ((errorsOf e.archive e.compose ms).length ≠ ms.length →
      (processJob e j0).job.status = BatchJobStatus.completed
      ∧ (processJob e j0).job.outputZipPath = some (outputZipOf j0.publicId)
      ∧ (processJob e j0).job.outputSizeBytes = some sz
      ∧ (processJob e j0).job.downloadExpiresAt = some (e.now + dayMs)
      ∧ (0 < (errorsOf e.archive e.compose ms).length →
          (processJob e j0).job.errorsDetail
            = some (errorsOf e.archive e.compose ms))
      ∧ (processJob e j0).result.success = true) := by
  have h := run_happy e j0 ms sz u2 hx hp hlim hpk hch hlg
  refine ⟨h.2.2.2.2.2.2.2.1, fun hne => ?_⟩
  have hc := h.2.2.2.2.2.2.2.2 hne
  refine ⟨hc.1, hc.2.1, hc.2.2.1, hc.2.2.2.1, hc.2.2.2.2.2.1, ?_⟩
  rw [h.1]
  have hle := okCount_add_errors e.archive e.compose ms
  simp only [decide_eq_true_eq]
  omega

/-- Witness for C3 at the mixed-failure scenario (completed branch). -/
theorem C3_finalization_witness :
    (processJob envMixed jobMixed).job.status = BatchJobStatus.completed
    ∧ (processJob envMixed jobMixed).job.outputZipPath
        = some (outputZipOf "p")
    ∧ (processJob envMixed jobMixed).job.outputSizeBytes = some 4242
    ∧ (processJob envMixed jobMixed).job.downloadExpiresAt
        = some (1000 + dayMs)
    ∧ (0 < (errorsOf envMixed.archive envMixed.compose
          [mf1, mf2, mf3]).length →
        (processJob envMixed jobMixed).job.errorsDetail
          = some (errorsOf envMixed.archive envMixed.compose
              [mf1, mf2, mf3]))
    ∧ (processJob envMixed jobMixed).result.success = true :=
  (C3_finalization envMixed jobMixed [mf1, mf2, mf3] 4242 none
    rfl rfl (by decide) rfl rfl rfl).2 (by decide)

/-- C4 counterexample: in the insufficient-credit scenario the job is first
persisted as `completed`, then the settlement exception makes the top-level
handler overwrite the terminal status with `failed` — a terminal status is
not immutable. -/
theorem C4_counterexample :
    ((processJob envPoor jobPoor).snaps.any
      (fun s => s.status == BatchJobStatus.completed)) = true
    ∧ (processJob envPoor jobPoor).job.status = BatchJobStatus.failed := by
  exact ⟨rfl, rfl⟩

/-- C4 (amended): once a job is terminal, cancellation requests are rejected
by the cancel endpoint (the surviving part of the claim); `markFailed` and
`markCompleted` themselves carry no terminal guard, so `C4_counterexample`
shows a completed job later overwritten by the fatal handler. -/
theorem C4_terminal_cancellation_rejected (j : Job) (now : Nat)
    (h : j.status = BatchJobStatus.completed
      ∨ j.status = BatchJobStatus.failed
      ∨ j.status = BatchJobStatus.cancelled) :
    cancelRequest now j = Except.error "Ce batch ne peut plus être annulé" := by
  unfold cancelRequest
  rw [if_pos h]

/-- Witness for the amended C4 at a concrete completed job. -/
theorem C4_terminal_cancellation_rejected_witness :
    cancelRequest 99 jobDone
      = Except.error "Ce batch ne peut plus être annulé" :=
  C4_terminal_cancellation_rejected jobDone 99 (Or.inl rfl)

/-- C5: any exception escaping the pipeline steps is caught by the single
top-level handler: the job ends `failed` carrying that exception message,
the whole per-job working directory is purged, and the returned result is
unsuccessful with the single `*` error entry — no raw exception reaches the
caller. -/
theorem C5_fatal_boundary (e : Env) (j0 : Job) (msg : String)
    (h : ∃ mid, processJobBody e j0 = Except.error (msg, mid)) :
    (processJob e j0).job.status = BatchJobStatus.failed
    ∧ (processJob e j0).job.errorMessage = some msg
    ∧ (processJob e j0).result.success = false
    ∧ (processJob e j0).result.errors = [⟨"*", msg⟩]
    ∧ (processJob e j0).fs.all
        (fun p => !(leadsTo (jobDirOf j0.publicId) p)) = true := by
  obtain ⟨mid, hmid⟩ := h
  rw [run_fatal e j0 msg mid hmid]
  refine ⟨rfl, rfl, rfl, rfl, ?_⟩
  rw [List.all_eq_true]
  intro p hp
  have h2 := mem_rmRec.1 hp
  simp [h2.2]

/-- Witness for C5 at the fatal-extraction scenario. -/
theorem C5_fatal_boundary_witness :
    (processJob envExtractFail jobX).job.status = BatchJobStatus.failed
    ∧ (processJob envExtractFail jobX).job.errorMessage = some "boom"
    ∧ (processJob envExtractFail jobX).result.success = false
    ∧ (processJob envExtractFail jobX).result.errors = [⟨"*", "boom"⟩]
    ∧ (processJob envExtractFail jobX).fs.all
        (fun p => !(leadsTo (jobDirOf "p") p)) = true :=
  C5_fatal_boundary envExtractFail jobX "boom" ⟨_, rfl⟩

/-- C6 counterexample: a job that ends `failed` through the fatal handler
(corrupt archive) retains the uploaded archive and manifest on disk — the
catch path purges only the job working directory, which does not contain
them. -/
theorem C6_counterexample :
    (processJob envExtractFail jobX).job.status = BatchJobStatus.failed
    ∧ uploadZipPathOf "u" ∈ (processJob envExtractFail jobX).fs
    ∧ uploadCsvPathOf "u" ∈ (processJob envExtractFail jobX).fs := by
  refine ⟨rfl, ?_, ?_⟩ <;> decide

/-- C6 (amended): on every run that completes the pipeline (terminal
`completed`, or `failed` because all items failed), the input/ subtree and
the uploaded archive and manifest are deleted, and the output archive is
never deleted by this release step; on the fatal path the uploads survive,
as `C6_counterexample` shows. -/
theorem C6_release_resources (e : Env) (j0 : Job)
    (ms : List BatchInvoiceMetadata) (sz : Nat) (u2 : Option User)
    (hx : e.extractResult = Except.ok ())
    (hp : e.parseResult = Except.ok ms)
    (hlim : ms.length ≤ 10000)
    (hpk : e.packResult = Except.ok sz)
    (hch : chargeStep e.userLookup (okCount e.archive e.compose ms)
      = Except.ok u2)
    (hlg : e.logResult = Except.ok ())
    (hzip : j0.inputZipPath = some (uploadZipPathOf e.uploadDirId))
    (hcsv : j0.metadataCsvPath = some (uploadCsvPathOf e.uploadDirId))
    (hlen : 0 < j0.publicId.length) :
    ((processJob e j0).job.status = BatchJobStatus.completed
      ∨ (processJob e j0).job.status = BatchJobStatus.failed)
    ∧ uploadZipPathOf e.uploadDirId ∉ (processJob e j0).fs
    ∧ uploadCsvPathOf e.uploadDirId ∉ (processJob e j0).fs
    ∧ (processJob e j0).fs.all
        (fun p => !(leadsTo (inputDirOf j0.publicId) p)) = true
    ∧ outputZipOf j0.publicId ∈ (processJob e j0).fs := by
  have hfs := run_happy_fs e j0 ms sz u2 hx hp hlim hpk hch hlg hzip hcsv
    (uploadZip_ne_outZip e.uploadDirId j0.publicId hlen)
    (uploadCsv_ne_outZip e.uploadDirId j0.publicId hlen)
    (inputDir_not_over_outZip j0.publicId)
  have h := run_happy e j0 ms sz u2 hx hp hlim hpk hch hlg
  refine ⟨?_, hfs.1, hfs.2.1, ?_, hfs.2.2.2⟩
  · rcases Decidable.em
      ((errorsOf e.archive e.compose ms).length = ms.length) with ha | ha
    · exact Or.inr (h.2.2.2.2.2.2.2.1 ha).1
    · exact Or.inl (h.2.2.2.2.2.2.2.2 ha).1
  · rw [List.all_eq_true]
    intro p hp
    simp [hfs.2.2.1 p hp]

/-- Witness for the amended C6 at the mixed-failure scenario. -/
theorem C6_release_resources_witness :
    ((processJob envMixed jobMixed).job.status = BatchJobStatus.completed
      ∨ (processJob envMixed jobMixed).job.status = BatchJobStatus.failed)
    ∧ uploadZipPathOf "u" ∉ (processJob envMixed jobMixed).fs
    ∧ uploadCsvPathOf "u" ∉ (processJob envMixed jobMixed).fs
    ∧ (processJob envMixed jobMixed).fs.all
        (fun p => !(leadsTo (inputDirOf "p") p)) = true
    ∧ outputZipOf "p" ∈ (processJob envMixed jobMixed).fs :=
  C6_release_resources envMixed jobMixed [mf1, mf2, mf3] 4242 none
    rfl rfl (by decide) rfl rfl rfl rfl rfl (by decide)

/-- C7 counterexample: at the terminal persisted snapshot of the
mixed-failure run the job is `completed` with `progress = 100`, while
`round(processedCount / totalItems * 100) = round(2/3 * 100) = 67` — the
claimed equation fails at a persisted snapshot. -/
theorem C7_counterexample :
    ((processJob envMixed jobMixed).snaps.any (fun s =>
      (s.status == BatchJobStatus.completed)
      && (s.progress != jsRound100 s.processedInvoices s.totalInvoices)))
      = true
    ∧ (processJob envMixed jobMixed).job.progress = 100
    ∧ (processJob envMixed jobMixed).job.processedInvoices = 2
    ∧ (processJob envMixed jobMixed).job.failedInvoices = 0
    ∧ (processJob envMixed jobMixed).job.totalInvoices = 3
    ∧ jsRound100 2 3 = 67 :=
  ⟨rfl, rfl, rfl, rfl, rfl, rfl⟩

/-- C7 (amended): every persisted snapshot of every run started from a
freshly created job satisfies `processedCount + failedCount ≤ totalItems`;
snapshots persisted while `processing` satisfy
`progressPercent = round(processedCount / totalItems * 100)`, and snapshots
persisted as `completed` carry `progressPercent = 100` (which differs from
the rounded ratio when the loop checkpoint skipped the last items, see
`C7_counterexample`); a zero-item run never recomputes the percentage, so no
division by zero occurs and the percentage stays 0. -/
theorem C7_progress_invariants (e : Env) (j0 : Job)
    (h0 : j0.processedInvoices = 0) (h1 : j0.failedInvoices = 0)
    (h2 : j0.progress = 0) :
    (processJob e j0).snaps.all snapOk = true := by
  rw [List.all_eq_true]
  intro j hj
  exact (snapOk_iff j).2 (run_snaps_good e j0 h0 h1 h2 j hj)

/-- Witness for the amended C7 at the mixed-failure scenario. -/
theorem C7_progress_invariants_witness :
    (processJob envMixed jobMixed).snaps.all snapOk = true :=
  C7_progress_invariants envMixed jobMixed rfl rfl rfl

/-- C8 counterexample: in the 2-PDFs-plus-missing-3rd scenario the job does
end `completed` with processedCount 2 and the one-entry error list, but the
persisted `failedInvoices` column is 0, not the claimed 1 — the final failed
item never hit the every-10 progress checkpoint. -/
theorem C8_counterexample :
    (processJob envMixed jobMixed).job.status = BatchJobStatus.completed
    ∧ (processJob envMixed jobMixed).job.processedInvoices = 2
    ∧ (processJob envMixed jobMixed).job.failedInvoices = 0
    ∧ (processJob envMixed jobMixed).job.errorsDetail
        = some [⟨"f3.pdf", "Fichier PDF non trouvé: f3.pdf"⟩] :=
  ⟨rfl, rfl, rfl, rfl⟩

/-- C8 (amended): the scenario job ends `completed`; the returned result
counts 2 processed and 1 failed and the persisted error list names exactly
the missing file; the persisted counters show processedCount 2 but
failedCount 0, because the final failure was never checkpointed. -/
theorem C8_mixed_outcome_scenario :
    (processJob envMixed jobMixed).job.status = BatchJobStatus.completed
    ∧ (processJob envMixed jobMixed).result.totalProcessed = 2
    ∧ (processJob envMixed jobMixed).result.totalFailed = 1
    ∧ (processJob envMixed jobMixed).result.errors
        = [⟨"f3.pdf", "Fichier PDF non trouvé: f3.pdf"⟩]
    ∧ (processJob envMixed jobMixed).job.errorsDetail
        = some [⟨"f3.pdf", "Fichier PDF non trouvé: f3.pdf"⟩]
    ∧ (processJob envMixed jobMixed).job.processedInvoices = 2
    ∧ (processJob envMixed jobMixed).job.failedInvoices = 0
    ∧ (processJob envMixed jobMixed).result.success = true :=
  ⟨rfl, rfl, rfl, rfl, rfl, rfl, rfl, rfl⟩

/-- C9: a manifest of more than 10,000 rows makes the job fail with the
size-ceiling message before any composition is attempted (status `failed`,
processedCount 0, returned processed total 0, and only the start and
failure snapshots were ever persisted); a manifest of at most 10,000 rows
passes the check and every record is attempted. -/
theorem C9_size_ceiling (e : Env) (j0 : Job)
    (ms : List BatchInvoiceMetadata)
    (hx : e.extractResult = Except.ok ())
    (hp : e.parseResult = Except.ok ms)
    (h0 : j0.processedInvoices = 0) :
    (10000 < ms.length →
      (processJob e j0).job.status = BatchJobStatus.failed
      ∧ (processJob e j0).job.processedInvoices = 0
      ∧ (processJob e j0).job.errorMessage = some (ceilingMsg ms.length)
      ∧ (processJob e j0).result.totalProcessed = 0
      ∧ (processJob e j0).snaps.length = 2)
    ∧ (∀ sz u2, ms.length ≤ 10000 → e.packResult = Except.ok sz →
        chargeStep e.userLookup (okCount e.archive e.compose ms)
          = Except.ok u2 →
        e.logResult = Except.ok () →
        (processJob e j0).result.totalProcessed
          + (processJob e j0).result.totalFailed = ms.length) := by
  constructor
  · intro hgt
    have hb : processJobBody e j0 = Except.error (ceilingMsg ms.length,
        ⟨startProcessing e.now j0, [startProcessing e.now j0],
          [uploadZipPathOf e.uploadDirId, uploadCsvPathOf e.uploadDirId]
            ++ e.archive.map (fun f => inputDirOf j0.publicId ++ [f.name])⟩) := by
      unfold processJobBody
      rw [hx, hp]
      show (if 10000 < ms.length then _ else _) = _
      rw [if_pos hgt]
    rw [run_fatal e j0 _ _ hb]
    exact ⟨rfl, h0, rfl, rfl, rfl⟩
  · intro sz u2 hlim hpk hch hlg
    have h := run_happy e j0 ms sz u2 hx hp hlim hpk hch hlg
    rw [h.2.1, h.2.2.1]
    exact okCount_add_errors _ _ _

/-- Witness for C9: the 10,001-row manifest fails at the ceiling; the 3-row
manifest passes and all rows are attempted. -/
theorem C9_size_ceiling_witness :
    ((processJob envBig jobBig).job.status = BatchJobStatus.failed
    ∧ (processJob envBig jobBig).job.processedInvoices = 0
    ∧ (processJob envBig jobBig).job.errorMessage
        = some (ceilingMsg (List.replicate 10001 mBig).length)
    ∧ (processJob envBig jobBig).result.totalProcessed = 0
    ∧ (processJob envBig jobBig).snaps.length = 2)
    ∧ (processJob envMixed jobMixed).result.totalProcessed
      + (processJob envMixed jobMixed).result.totalFailed = 3 :=
  ⟨(C9_size_ceiling envBig jobBig (List.replicate 10001 mBig)
      rfl rfl rfl).1 (by rw [List.length_replicate]; omega),
   (C9_size_ceiling envMixed jobMixed [mf1, mf2, mf3] rfl rfl rfl).2
      4242 none (by decide) rfl rfl rfl⟩

/-- C10: whenever a fatal error aborts `processJob`, the returned
`BatchProcessingResult` reports `totalProcessed = 0`,
`totalFailed = totalInvoices` of the job at the throw site, and a single
error entry whose filename is `*` — even when items had already been
composed before the failure (witnessed by a packaging failure after two
successful compositions). -/
theorem C10_fatal_result_shape (e : Env) (j0 : Job) (msg : String)
    (h : ∃ mid, processJobBody e j0 = Except.error (msg, mid)) :
    (processJob e j0).result.totalProcessed = 0
    ∧ (processJob e j0).result.totalFailed
        = (processJob e j0).job.totalInvoices
    ∧ (processJob e j0).result.errors = [⟨"*", msg⟩]
    ∧ (processJob e j0).result.success = false := by
  obtain ⟨mid, hmid⟩ := h
  rw [run_fatal e j0 msg mid hmid]
  exact ⟨rfl, rfl, rfl, rfl⟩

/-- Witness for C10: packaging fails after both items composed; the result
still reports zero processed and the job total as failed. -/
theorem C10_fatal_result_shape_witness :
    ((processJob envPackFail jobPack).result.totalProcessed = 0
    ∧ (processJob envPackFail jobPack).result.totalFailed
        = (processJob envPackFail jobPack).job.totalInvoices
    ∧ (processJob envPackFail jobPack).result.errors
        = [⟨"*", "Zip stream error"⟩]
    ∧ (processJob envPackFail jobPack).result.success = false)
    ∧ okCount envPackFail.archive envPackFail.compose [mf1, mf2] = 2 :=
  ⟨C10_fatal_result_shape envPackFail jobPack "Zip stream error" ⟨_, rfl⟩,
   by decide⟩

end Metron


